import Mathlib

/-!
Verification development for the online-course CRUD backend
(Express + Mongoose routes under `src/routes`, schemas under `src/models`,
wiring in `src/server.js`).

The HTTP layer is embedded shallowly: a request handler is a Lean function
from the store (`DB`), the parsed request body / query parameters, and —
for create routes — the fresh id the document store assigns, to a
`Response` (status code plus JSON body) and the post-request store.
Document-store ids are opaque strings.  MongoDB / Mongoose library calls
(`find`, `findOne`, `findByIdAndUpdate` with the `new` flag,
`findByIdAndDelete`, `save` with required-field validation, `populate`)
are modelled by their documented semantics on these list-backed stores.
-/

namespace CourseApi

/-- JSON values, as produced by `res.json(...)`.  Only the constructors the
routes actually emit are modelled (no numbers or booleans are sent by the
handlers under verification). -/
inductive Json where
  | null : Json
  | str : String → Json
  | arr : List Json → Json
  | obj : List (String × Json) → Json

/-- An HTTP response: status code and JSON body. -/
structure Response where
  status : Nat
  body : Json

/-- `res.status(st).json({ message: m })`. -/
def jsonMsg (st : Nat) (m : String) : Response :=
  ⟨st, Json.obj [("message", Json.str m)]⟩

/-- Field names of a JSON object (empty for non-objects). -/
def jsonKeys : Json → List String
  | Json.obj fs => fs.map Prod.fst
  | _ => []

/-- Field lookup in a JSON object. -/
def jsonLookup (k : String) : Json → Option Json
  | Json.obj fs => (fs.find? (fun f => f.fst = k)).map Prod.snd
  | _ => none

/-- JavaScript truthiness test on an optional string request field:
`undefined` and the empty string are falsy, every other string is truthy
(`if (x) ...` / `!x` in the route sources). -/
def jsFalsy : Option String → Bool
  | none => true
  | some s => s = ""

/-- `truthy x = !(jsFalsy x)`, the guard used when building filter queries. -/
def truthy (x : Option String) : Bool := !(jsFalsy x)

/-! ## Entity documents

`Quiz`, `Course`, `Lesson`, `Submission` are taken from `src/models`.
`User` and `Enrollment` are modelled from the spec: `src/models/User.js`
and `src/models/Enrollment.js` are not in the source tree; the spec's data
model (§3) gives User `name`/`email`/`role` (required, presence-only
validation) and Enrollment `student`/`course` (required) plus
`enrollmentDate` defaulting to the creation time.  Every stored document
carries the id assigned at creation. -/

structure User where
  id : String
  name : String
  email : String
  role : String
deriving DecidableEq

structure Course where
  id : String
  title : String
  description : Option String
  instructor : String
  lessons : List String
deriving DecidableEq

structure Lesson where
  id : String
  title : String
  content : Option String
  course : String
deriving DecidableEq

structure Quiz where
  id : String
  question : String
  options : List String
  answer : String
  lesson : String
deriving DecidableEq

structure Submission where
  id : String
  student : String
  quiz : String
  answer : String
deriving DecidableEq

structure Enrollment where
  id : String
  student : String
  course : String
  enrollmentDate : String
deriving DecidableEq

/-- The document store: one collection per entity. -/
structure DB where
  users : List User
  courses : List Course
  lessons : List Lesson
  quizzes : List Quiz
  submissions : List Submission
  enrollments : List Enrollment
deriving DecidableEq

def emptyDB : DB := ⟨[], [], [], [], [], []⟩

/-! ## Serialization and relation expansion -/

def userToJson (u : User) : Json :=
  Json.obj [("_id", Json.str u.id), ("name", Json.str u.name),
            ("email", Json.str u.email), ("role", Json.str u.role)]

def lessonToJson (l : Lesson) : Json :=
  Json.obj ([("_id", Json.str l.id), ("title", Json.str l.title)] ++
    (match l.content with
     | some c => [("content", Json.str c)]
     | none => []) ++
    [("course", Json.str l.course)])

def courseToJson (c : Course) : Json :=
  Json.obj ([("_id", Json.str c.id), ("title", Json.str c.title)] ++
    (match c.description with
     | some d => [("description", Json.str d)]
     | none => []) ++
    [("instructor", Json.str c.instructor),
     ("lessons", Json.arr (c.lessons.map Json.str))])

def quizToJson (q : Quiz) : Json :=
  Json.obj [("_id", Json.str q.id), ("question", Json.str q.question),
            ("options", Json.arr (q.options.map Json.str)),
            ("answer", Json.str q.answer), ("lesson", Json.str q.lesson)]

def findUser (db : DB) (i : String) : Option User :=
  db.users.find? (fun u => u.id = i)

def findCourse (db : DB) (i : String) : Option Course :=
  db.courses.find? (fun c => c.id = i)

def findLesson (db : DB) (i : String) : Option Lesson :=
  db.lessons.find? (fun l => l.id = i)

def findQuiz (db : DB) (i : String) : Option Quiz :=
  db.quizzes.find? (fun q => q.id = i)

/-- `populate` on a single reference: the full referenced document, or
`null` when the reference dangles. -/
def populateUser (db : DB) (i : String) : Json :=
  match findUser db i with
  | some u => userToJson u
  | none => Json.null

def populateLesson (db : DB) (i : String) : Json :=
  match findLesson db i with
  | some l => lessonToJson l
  | none => Json.null

def populateQuiz (db : DB) (i : String) : Json :=
  match findQuiz db i with
  | some q => quizToJson q
  | none => Json.null

/-- `Course` with `instructor` and `lessons` expanded; `populate` on an
array of references drops the dangling ones. -/
def courseToJsonPopulated (db : DB) (c : Course) : Json :=
  Json.obj ([("_id", Json.str c.id), ("title", Json.str c.title)] ++
    (match c.description with
     | some d => [("description", Json.str d)]
     | none => []) ++
    [("instructor", populateUser db c.instructor),
     ("lessons", Json.arr ((c.lessons.filterMap (findLesson db)).map lessonToJson))])

def lessonToJsonPopulated (db : DB) (l : Lesson) : Json :=
  Json.obj ([("_id", Json.str l.id), ("title", Json.str l.title)] ++
    (match l.content with
     | some c => [("content", Json.str c)]
     | none => []) ++
    [("course", match findCourse db l.course with
                | some c => courseToJson c
                | none => Json.null)])

def quizToJsonPopulated (db : DB) (q : Quiz) : Json :=
  Json.obj [("_id", Json.str q.id), ("question", Json.str q.question),
            ("options", Json.arr (q.options.map Json.str)),
            ("answer", Json.str q.answer), ("lesson", populateLesson db q.lesson)]

def submissionToJsonPopulated (db : DB) (s : Submission) : Json :=
  Json.obj [("_id", Json.str s.id), ("student", populateUser db s.student),
            ("quiz", populateQuiz db s.quiz), ("answer", Json.str s.answer)]

def enrollmentToJsonPopulated (db : DB) (e : Enrollment) : Json :=
  Json.obj [("_id", Json.str e.id), ("student", populateUser db e.student),
            ("course", match findCourse db e.course with
                       | some c => courseToJson c
                       | none => Json.null),
            ("enrollmentDate", Json.str e.enrollmentDate)]

/-! ## `$regex` with the `i` option

`GET /api/courses` filters titles with `{ $regex: title, $options: 'i' }`:
an unanchored, case-insensitive regular-expression search over the title.
The matcher below models the PCRE fragment of patterns built from literal
characters and the `.` metacharacter (which matches any single character);
case folding is the ASCII `Char.toLower`.  On patterns containing any
other PCRE metacharacter (`*`, `+`, `?`, `[`, `(`, `\`, `^`, `$`, `|`,
`{`, ...) this model diverges from MongoDB — it would treat them as
literals — so every theorem about the title filter either uses a pattern
inside the modelled fragment or hypothesises, via `isRegexMeta`, that the
pattern is free of all metacharacters. -/

def regexCharMatches (p c : Char) : Bool :=
  p = '.' || p.toLower = c.toLower

/-- Does the pattern match a prefix of the text? -/
def regexMatchHere : List Char → List Char → Bool
  | [], _ => true
  | _ :: _, [] => false
  | p :: ps, c :: cs => regexCharMatches p c && regexMatchHere ps cs

/-- Unanchored search: does the pattern match at some position? -/
def regexSearch (pat : List Char) : List Char → Bool
  | [] => regexMatchHere pat []
  | c :: cs => regexMatchHere pat (c :: cs) || regexSearch pat cs

def regexTest (pat s : String) : Bool :=
  regexSearch pat.data s.data

/-- The PCRE metacharacters: a pattern containing none of these is matched
purely literally, by MongoDB's `$regex` and by the model above alike. -/
def isRegexMeta (c : Char) : Bool :=
  c = '.' || c = '*' || c = '+' || c = '?' || c = '[' || c = ']' ||
  c = '(' || c = ')' || c = '\\' || c = '^' || c = '$' || c = '|' ||
  c = '{' || c = '}'

/-! Spec-side notion, for comparison with the code's `$regex` filter:
"title contains the given string case-insensitively" (spec §4.2, §8). -/

def charEqCI (p c : Char) : Bool := p.toLower = c.toLower

def isPrefixCI : List Char → List Char → Bool
  | [], _ => true
  | _ :: _, [] => false
  | p :: ps, c :: cs => charEqCI p c && isPrefixCI ps cs

def containsCIL (pat : List Char) : List Char → Bool
  | [] => isPrefixCI pat []
  | c :: cs => isPrefixCI pat (c :: cs) || containsCIL pat cs

/-- Modelled from the spec: case-insensitive substring containment, the
spec's description of the Course title filter. -/
def containsCI (pat s : String) : Bool :=
  containsCIL pat.data s.data

/-! ## Route handlers

Each handler is the route body from `src/routes` (and the two route files
with unknown names), with `req.body` / `req.query` as parameters and the
store threaded explicitly.  Create handlers additionally take the fresh id
the store assigns to the saved document. -/

/-- `req.body` of `POST /api/users`: the three fields the handler reads,
plus whatever other fields the caller supplied. -/
structure UserCreateBody where
  name : Option String
  email : Option String
  role : Option String
  extra : List (String × Json)

/-- `router.post('/')` in `src/routes/users.js`: presence check on
name/email/role (JS truthiness), duplicate-email check via
`User.findOne({email})`, then `new User({name, email, role}).save()`. -/
def usersCreate (db : DB) (body : UserCreateBody) (newId : String) : Response × DB :=
  if jsFalsy body.name || jsFalsy body.email || jsFalsy body.role then
    (jsonMsg 400 "Missing required fields", db)
  else if (db.users.find? (fun u => u.email = body.email.getD "")).isSome then
    (jsonMsg 400 "User already exists", db)
  else
    let u : User := ⟨newId, body.name.getD "", body.email.getD "", body.role.getD ""⟩
    (⟨201, userToJson u⟩, { db with users := db.users ++ [u] })

/-- `router.get('/')` in `src/routes/users.js`: `User.find().select('-__v')`
(the internal version key is not part of this model). -/
def usersList (db : DB) : Response :=
  ⟨200, Json.arr (db.users.map userToJson)⟩

/-- Query built by `router.get('/')` of the courses route: the title
condition is added when `title` is truthy, the instructor condition when
`instructor` is truthy; `find` conjoins the conditions. -/
def courseMatches (title instructor : Option String) (c : Course) : Bool :=
  (if truthy title then regexTest (title.getD "") c.title else true) &&
  (if truthy instructor then c.instructor = instructor.getD "" else true)

/-- `router.get('/')` of the courses route: filter, then populate
`instructor` and `lessons`. -/
def coursesList (db : DB) (title instructor : Option String) : Response :=
  ⟨200, Json.arr ((db.courses.filter (courseMatches title instructor)).map
    (courseToJsonPopulated db))⟩

def lessonMatches (course : Option String) (l : Lesson) : Bool :=
  if truthy course then l.course = course.getD "" else true

/-- `router.get('/')` of the lessons route. -/
def lessonsList (db : DB) (course : Option String) : Response :=
  ⟨200, Json.arr ((db.lessons.filter (lessonMatches course)).map
    (lessonToJsonPopulated db))⟩

def quizMatches (lesson : Option String) (q : Quiz) : Bool :=
  if truthy lesson then q.lesson = lesson.getD "" else true

/-- `router.get('/')` in `src/routes/quizzes.js`. -/
def quizzesList (db : DB) (lesson : Option String) : Response :=
  ⟨200, Json.arr ((db.quizzes.filter (quizMatches lesson)).map
    (quizToJsonPopulated db))⟩

def submissionMatches (student quiz : Option String) (s : Submission) : Bool :=
  (if truthy student then s.student = student.getD "" else true) &&
  (if truthy quiz then s.quiz = quiz.getD "" else true)

/-- `router.get('/')` of the submissions route. -/
def submissionsList (db : DB) (student quiz : Option String) : Response :=
  ⟨200, Json.arr ((db.submissions.filter (submissionMatches student quiz)).map
    (submissionToJsonPopulated db))⟩

def enrollmentMatches (student course : Option String) (e : Enrollment) : Bool :=
  (if truthy student then e.student = student.getD "" else true) &&
  (if truthy course then e.course = course.getD "" else true)

/-- `router.get('/')` in `src/routes/enrollments.js`. -/
def enrollmentsList (db : DB) (student course : Option String) : Response :=
  ⟨200, Json.arr ((db.enrollments.filter (enrollmentMatches student course)).map
    (enrollmentToJsonPopulated db))⟩

/-- `req.body` of `POST /api/quizzes`, as cast by `new Quiz(req.body)`. -/
structure QuizCreateBody where
  question : Option String
  options : Option (List String)
  answer : Option String
  lesson : Option String

/-- Does `save()` pass the schema's required-field validation
(`src/models/Quiz.js`: question, answer, lesson required)?  Mongoose
rejects a missing or empty required string and a missing reference id. -/
def quizBodyValid (b : QuizCreateBody) : Bool :=
  !(jsFalsy b.question) && !(jsFalsy b.answer) && !(jsFalsy b.lesson)

/-- The `err.message` a failed quiz `save()` produces (modelled as a fixed
string; only its presence in the 500 body matters). -/
def quizValidationMsg : String := "Quiz validation failed"

/-- `router.post('/')` in `src/routes/quizzes.js`: `new Quiz(req.body)`,
`save()`, 201 on success; the catch-all returns
`500 {message: 'Server error', error: err.message}` on any error —
including the validation error for a missing required field. -/
def quizzesCreate (db : DB) (body : QuizCreateBody) (newId : String) : Response × DB :=
  if quizBodyValid body then
    let q : Quiz := ⟨newId, body.question.getD "", body.options.getD [],
                     body.answer.getD "", body.lesson.getD ""⟩
    (⟨201, quizToJson q⟩, { db with quizzes := db.quizzes ++ [q] })
  else
    (⟨500, Json.obj [("message", Json.str "Server error"),
                     ("error", Json.str quizValidationMsg)]⟩, db)

/-! Update bodies: `findByIdAndUpdate(id, req.body, {new: true})` treats a
plain body as a `$set` of each supplied top-level field — a shallow patch;
with `new: true` it resolves to the post-update document, and to `null`
when no document has the id. -/

structure QuizPatch where
  question : Option String
  options : Option (List String)
  answer : Option String
  lesson : Option String

def applyQuizPatch (p : QuizPatch) (q : Quiz) : Quiz :=
  { q with
    question := p.question.getD q.question
    options := p.options.getD q.options
    answer := p.answer.getD q.answer
    lesson := p.lesson.getD q.lesson }

/-- `router.put('/:id')` in `src/routes/quizzes.js`: update, then an
explicit null check giving `404 {message: 'Quiz not found'}`. -/
def quizzesUpdate (db : DB) (i : String) (p : QuizPatch) : Response × DB :=
  match db.quizzes.find? (fun q => q.id = i) with
  | none => (jsonMsg 404 "Quiz not found", db)
  | some q =>
    (⟨200, quizToJson (applyQuizPatch p q)⟩,
     { db with quizzes := db.quizzes.map (fun r => if r.id = i then applyQuizPatch p r else r) })

/-- `router.delete('/:id')` in `src/routes/quizzes.js`: delete with an
explicit null check giving `404 {message: 'Quiz not found'}`. -/
def quizzesDelete (db : DB) (i : String) : Response × DB :=
  match db.quizzes.find? (fun q => q.id = i) with
  | none => (jsonMsg 404 "Quiz not found", db)
  | some _ =>
    (⟨200, Json.obj [("message", Json.str "Quiz deleted")]⟩,
     { db with quizzes := db.quizzes.filter (fun q => !(q.id = i)) })

structure CoursePatch where
  title : Option String
  description : Option String
  instructor : Option String
  lessons : Option (List String)

def applyCoursePatch (p : CoursePatch) (c : Course) : Course :=
  { c with
    title := p.title.getD c.title
    description := (p.description.map some).getD c.description
    instructor := p.instructor.getD c.instructor
    lessons := p.lessons.getD c.lessons }

/-- `router.put('/:id')` of the courses route: no existence check —
`res.json` of the `findByIdAndUpdate` result, which is `null` for an
unknown id. -/
def coursesUpdate (db : DB) (i : String) (p : CoursePatch) : Response × DB :=
  match db.courses.find? (fun c => c.id = i) with
  | none => (⟨200, Json.null⟩, db)
  | some c =>
    (⟨200, courseToJson (applyCoursePatch p c)⟩,
     { db with courses := db.courses.map (fun r => if r.id = i then applyCoursePatch p r else r) })

structure LessonPatch where
  title : Option String
  content : Option String
  course : Option String

def applyLessonPatch (p : LessonPatch) (l : Lesson) : Lesson :=
  { l with
    title := p.title.getD l.title
    content := (p.content.map some).getD l.content
    course := p.course.getD l.course }

/-- `router.put('/:id')` of the lessons route: no existence check. -/
def lessonsUpdate (db : DB) (i : String) (p : LessonPatch) : Response × DB :=
  match db.lessons.find? (fun l => l.id = i) with
  | none => (⟨200, Json.null⟩, db)
  | some l =>
    (⟨200, lessonToJson (applyLessonPatch p l)⟩,
     { db with lessons := db.lessons.map (fun r => if r.id = i then applyLessonPatch p r else r) })

structure SubmissionPatch where
  student : Option String
  quiz : Option String
  answer : Option String

def applySubmissionPatch (p : SubmissionPatch) (s : Submission) : Submission :=
  { s with
    student := p.student.getD s.student
    quiz := p.quiz.getD s.quiz
    answer := p.answer.getD s.answer }

def submissionToJson (s : Submission) : Json :=
  Json.obj [("_id", Json.str s.id), ("student", Json.str s.student),
            ("quiz", Json.str s.quiz), ("answer", Json.str s.answer)]

/-- `router.put('/:id')` of the submissions route: no existence check. -/
def submissionsUpdate (db : DB) (i : String) (p : SubmissionPatch) : Response × DB :=
  match db.submissions.find? (fun s => s.id = i) with
  | none => (⟨200, Json.null⟩, db)
  | some s =>
    (⟨200, submissionToJson (applySubmissionPatch p s)⟩,
     { db with submissions := db.submissions.map (fun r => if r.id = i then applySubmissionPatch p r else r) })

structure EnrollmentPatch where
  student : Option String
  course : Option String
  enrollmentDate : Option String

def applyEnrollmentPatch (p : EnrollmentPatch) (e : Enrollment) : Enrollment :=
  { e with
    student := p.student.getD e.student
    course := p.course.getD e.course
    enrollmentDate := p.enrollmentDate.getD e.enrollmentDate }

def enrollmentToJson (e : Enrollment) : Json :=
  Json.obj [("_id", Json.str e.id), ("student", Json.str e.student),
            ("course", Json.str e.course), ("enrollmentDate", Json.str e.enrollmentDate)]

/-- `router.put('/:id')` in `src/routes/enrollments.js`: no existence
check. -/
def enrollmentsUpdate (db : DB) (i : String) (p : EnrollmentPatch) : Response × DB :=
  match db.enrollments.find? (fun e => e.id = i) with
  | none => (⟨200, Json.null⟩, db)
  | some e =>
    (⟨200, enrollmentToJson (applyEnrollmentPatch p e)⟩,
     { db with enrollments := db.enrollments.map (fun r => if r.id = i then applyEnrollmentPatch p r else r) })

/-- Router mounts from `src/server.js` (`app.use(path, router)`), in source
order: mount path paired with the entity router it mounts. -/
def routeMounts : List (String × String) :=
  [("/api/users", "users"), ("/api/courses", "courses"),
   ("/api/lessons", "lessons"), ("/api/enrollments", "enrollments"),
   ("/api/quizzes", "quizzes"), ("/api/submissions", "submissions")]

/-! ## Concrete fixtures (for witnesses and counterexamples) -/

def user1 : User := ⟨"u1", "John Doe", "john@example.com", "student"⟩
def course1 : Course := ⟨"c1", "Intro to Node", none, "u1", []⟩
def lesson1 : Lesson := ⟨"l1", "Intro to Express", none, "c1"⟩
def quiz1 : Quiz := ⟨"q1", "What is Node?", ["A runtime", "A database"], "A runtime", "l1"⟩
def submission1 : Submission := ⟨"s1", "u1", "q1", "A runtime"⟩
def enrollment1 : Enrollment := ⟨"e1", "u1", "c1", "2023-06-01"⟩

def db1 : DB := ⟨[user1], [course1], [lesson1], [quiz1], [submission1], [enrollment1]⟩

def johnBody : UserCreateBody :=
  ⟨some "John Doe", some "john@example.com", some "student", [("admin", Json.str "yes")]⟩

/-! ## Helper lemmas -/

theorem find?_isSome_eq_any {α : Type} (l : List α) (p : α → Bool) :
    (l.find? p).isSome = l.any p := by
  induction l with
  | nil => rfl
  | cons x xs ih => cases hx : p x <;> simp [List.find?_cons, hx, ih]

theorem containsCIL_nil_pat (s : List Char) : containsCIL [] s = true := by
  cases s <;> simp [containsCIL, isPrefixCI]

theorem regexMatchHere_eq_isPrefixCI (pat : List Char) (h : '.' ∉ pat) (s : List Char) :
    regexMatchHere pat s = isPrefixCI pat s := by
  induction pat generalizing s with
  | nil => cases s <;> rfl
  | cons p ps ih =>
    have hp : p ≠ '.' := fun hh => h (hh ▸ List.mem_cons_self p ps)
    have hps : '.' ∉ ps := fun hm => h (List.mem_cons_of_mem p hm)
    cases s with
    | nil => rfl
    | cons c cs =>
      simp [regexMatchHere, isPrefixCI, regexCharMatches, charEqCI, hp, ih hps]

theorem regexSearch_eq_containsCIL (pat : List Char) (h : '.' ∉ pat) (s : List Char) :
    regexSearch pat s = containsCIL pat s := by
  induction s with
  | nil => simp [regexSearch, containsCIL, regexMatchHere_eq_isPrefixCI pat h]
  | cons c cs ih => simp [regexSearch, containsCIL, regexMatchHere_eq_isPrefixCI pat h, ih]

/-- A criterion guard `if truthy x then b(x) else true` is `x.all b` as soon
as a supplied criterion is a nonempty string. -/
theorem truthy_guard_eq_all (x : Option String) (h : ∀ s, x = some s → s ≠ "")
    (b : String → Bool) :
    (if truthy x then b (x.getD "") else true) = x.all b := by
  cases x with
  | none => rfl
  | some s => simp [truthy, jsFalsy, h s rfl, Option.all]

/-! ## Claim theorems -/

/-- C2: a quiz-create body missing question, answer and lesson does NOT get
the 400 ValidationError response the claim (and the route's own swagger
comment) promises: the catch-all in `router.post('/')` of
`src/routes/quizzes.js` surfaces the mongoose validation failure as
`500 {message: 'Server error', error: err.message}`, and the store is left
unchanged. -/
theorem quizzesCreate_missing_required_gives_500 :
    quizzesCreate db1 ⟨none, none, none, none⟩ "q9" =
      (⟨500, Json.obj [("message", Json.str "Server error"),
                       ("error", Json.str quizValidationMsg)]⟩, db1) := rfl

/-- C3: quiz update-by-id and delete-by-id return
`404 {message: 'Quiz not found'}` and leave the store unchanged when no
stored quiz has the id; when the quiz with the id exists, update responds
200 with the patched document and delete responds
`200 {message: 'Quiz deleted'}`. -/
theorem quizzesUpdateDelete_notFound_spec :
    (∀ (db : DB) (i : String) (p : QuizPatch), (∀ q ∈ db.quizzes, q.id ≠ i) →
      quizzesUpdate db i p = (jsonMsg 404 "Quiz not found", db)) ∧
    (∀ (db : DB) (i : String), (∀ q ∈ db.quizzes, q.id ≠ i) →
      quizzesDelete db i = (jsonMsg 404 "Quiz not found", db)) ∧
    (∀ (db : DB) (i : String) (p : QuizPatch) (q : Quiz),
      db.quizzes.find? (fun x => x.id = i) = some q →
      (quizzesUpdate db i p).fst = ⟨200, quizToJson (applyQuizPatch p q)⟩) ∧
    (∀ (db : DB) (i : String) (q : Quiz),
      db.quizzes.find? (fun x => x.id = i) = some q →
      (quizzesDelete db i).fst = ⟨200, Json.obj [("message", Json.str "Quiz deleted")]⟩) := by
  refine ⟨?_, ?_, ?_, ?_⟩
  · intro db i p h
    have hn : db.quizzes.find? (fun x => x.id = i) = none := by
      rw [List.find?_eq_none]
      intro q hq
      simpa using h q hq
    simp [quizzesUpdate, hn]
  · intro db i h
    have hn : db.quizzes.find? (fun x => x.id = i) = none := by
      rw [List.find?_eq_none]
      intro q hq
      simpa using h q hq
    simp [quizzesDelete, hn]
  · intro db i p q h
    simp [quizzesUpdate, h]
  · intro db i q h
    simp [quizzesDelete, h]

theorem quizzesUpdateDelete_notFound_spec_witness :
    quizzesUpdate db1 "nope" ⟨none, none, none, none⟩ =
      (jsonMsg 404 "Quiz not found", db1) :=
  quizzesUpdateDelete_notFound_spec.1 db1 "nope" ⟨none, none, none, none⟩ (by decide)

/-- C4: for Lesson, Course, Submission and Enrollment, updating an id no
stored document carries performs no existence check: the handler responds
200 with body `null` and the store is unchanged. -/
theorem update_nonexistent_null_spec :
    (∀ (db : DB) (i : String) (p : LessonPatch), (∀ l ∈ db.lessons, l.id ≠ i) →
      lessonsUpdate db i p = (⟨200, Json.null⟩, db)) ∧
    (∀ (db : DB) (i : String) (p : CoursePatch), (∀ c ∈ db.courses, c.id ≠ i) →
      coursesUpdate db i p = (⟨200, Json.null⟩, db)) ∧
    (∀ (db : DB) (i : String) (p : SubmissionPatch), (∀ s ∈ db.submissions, s.id ≠ i) →
      submissionsUpdate db i p = (⟨200, Json.null⟩, db)) ∧
    (∀ (db : DB) (i : String) (p : EnrollmentPatch), (∀ e ∈ db.enrollments, e.id ≠ i) →
      enrollmentsUpdate db i p = (⟨200, Json.null⟩, db)) := by
  refine ⟨?_, ?_, ?_, ?_⟩
  · intro db i p h
    have hn : db.lessons.find? (fun x => x.id = i) = none := by
      rw [List.find?_eq_none]; intro l hl; simpa using h l hl
    simp [lessonsUpdate, hn]
  · intro db i p h
    have hn : db.courses.find? (fun x => x.id = i) = none := by
      rw [List.find?_eq_none]; intro c hc; simpa using h c hc
    simp [coursesUpdate, hn]
  · intro db i p h
    have hn : db.submissions.find? (fun x => x.id = i) = none := by
      rw [List.find?_eq_none]; intro s hs; simpa using h s hs
    simp [submissionsUpdate, hn]
  · intro db i p h
    have hn : db.enrollments.find? (fun x => x.id = i) = none := by
      rw [List.find?_eq_none]; intro e he; simpa using h e he
    simp [enrollmentsUpdate, hn]

theorem update_nonexistent_null_spec_witness :
    lessonsUpdate db1 "nope" ⟨none, none, none⟩ = (⟨200, Json.null⟩, db1) :=
  update_nonexistent_null_spec.1 db1 "nope" ⟨none, none, none⟩ (by decide)

/-- C7 counterexample: in `src/server.js` the enrollment router is mounted
at `/api/enrollments`, not at `/enrollments` as the claim states (only the
swagger doc comments inside the enrollments route file use `/enrollments`
paths). -/
theorem enrollments_mount_counterexample :
    (routeMounts.find? (fun m => m.snd = "enrollments")).map Prod.fst =
      some "/api/enrollments" ∧
    ("/api/enrollments" : String) ≠ "/enrollments" := by
  exact ⟨by decide, by decide⟩

/-- C7 amended: every router of `src/server.js`, the enrollment router
included, is mounted at `/api/<plural-entity-name>`; no mount path
deviates from that pattern. -/
theorem routeMounts_uniform_api :
    routeMounts.all (fun m => m.fst = "/api/" ++ m.snd) = true := by decide

/-- C9: in every filtered list operation, a criterion supplied as the empty
string behaves exactly like an omitted criterion, because each criterion is
gated on JS truthiness (`if (x) query.f = x`). -/
theorem empty_string_filter_omitted :
    (∀ (db : DB) (i : Option String), coursesList db (some "") i = coursesList db none i) ∧
    (∀ (db : DB) (t : Option String), coursesList db t (some "") = coursesList db t none) ∧
    (∀ db : DB, lessonsList db (some "") = lessonsList db none) ∧
    (∀ db : DB, quizzesList db (some "") = quizzesList db none) ∧
    (∀ (db : DB) (q : Option String), submissionsList db (some "") q = submissionsList db none q) ∧
    (∀ (db : DB) (s : Option String), submissionsList db s (some "") = submissionsList db s none) ∧
    (∀ (db : DB) (c : Option String), enrollmentsList db (some "") c = enrollmentsList db none c) ∧
    (∀ (db : DB) (s : Option String), enrollmentsList db s (some "") = enrollmentsList db s none) := by
  refine ⟨?_, ?_, ?_, ?_, ?_, ?_, ?_, ?_⟩ <;> intros <;> rfl

def emptyNameBody : UserCreateBody := ⟨some "", some "ann@example.com", some "student", []⟩

/-- C1 counterexample: a request body whose `name` field is present but is
the empty string — so none of the three required fields is missing, and no
stored user shares the email — is still rejected with
`400 {message: 'Missing required fields'}`: the handler gates the fields on
JS truthiness, so the claimed 201 success does not happen. -/
theorem usersCreate_empty_field_counterexample :
    emptyNameBody.name ≠ none ∧ emptyNameBody.email ≠ none ∧ emptyNameBody.role ≠ none ∧
    (∀ u ∈ emptyDB.users, u.email ≠ emptyNameBody.email.getD "") ∧
    usersCreate emptyDB emptyNameBody "id1" = (jsonMsg 400 "Missing required fields", emptyDB) := by
  refine ⟨by simp [emptyNameBody], by simp [emptyNameBody], by simp [emptyNameBody],
          by simp [emptyDB], rfl⟩

/-- C1 amended: user create rejects a body whose name, email or role is
missing OR empty (JS truthiness) with `400 {message: 'Missing required
fields'}`; with all three present and nonempty it rejects a duplicate email
with `400 {message: 'User already exists'}`, and otherwise persists exactly
`{name, email, role}` and responds 201 with those fields plus the assigned
id. -/
theorem usersCreate_validation_conflict_create (db : DB) (body : UserCreateBody) (newId : String) :
    ((jsFalsy body.name || jsFalsy body.email || jsFalsy body.role) = true →
      usersCreate db body newId = (jsonMsg 400 "Missing required fields", db)) ∧
    (∀ n e r, body.name = some n → body.email = some e → body.role = some r →
      n ≠ "" → e ≠ "" → r ≠ "" →
      (db.users.any (fun u => u.email = e) = true →
        usersCreate db body newId = (jsonMsg 400 "User already exists", db)) ∧
      (db.users.any (fun u => u.email = e) = false →
        usersCreate db body newId =
          (⟨201, Json.obj [("_id", Json.str newId), ("name", Json.str n),
                           ("email", Json.str e), ("role", Json.str r)]⟩,
           { db with users := db.users ++ [⟨newId, n, e, r⟩] }))) := by
  constructor
  · intro h
    rw [usersCreate, if_pos h]
  · intro n e r hn he hr hn0 he0 hr0
    have hcond : (jsFalsy body.name || jsFalsy body.email || jsFalsy body.role) = false := by
      simp [jsFalsy, hn, he, hr, hn0, he0, hr0]
    have hcond' : ¬ ((jsFalsy body.name || jsFalsy body.email || jsFalsy body.role) = true) := by
      rw [hcond]; exact Bool.false_ne_true
    constructor
    · intro hdup
      have hs : (db.users.find? (fun u => u.email = body.email.getD "")).isSome = true := by
        rw [find?_isSome_eq_any, he]
        simpa using hdup
      rw [usersCreate, if_neg hcond', if_pos hs]
    · intro hdup
      have hs : (db.users.find? (fun u => u.email = body.email.getD "")).isSome = false := by
        rw [find?_isSome_eq_any, he]
        simpa using hdup
      have hs' : ¬ ((db.users.find? (fun u => u.email = body.email.getD "")).isSome = true) := by
        rw [hs]; exact Bool.false_ne_true
      rw [usersCreate, if_neg hcond', if_neg hs']
      simp [hn, he, hr, userToJson]

theorem usersCreate_validation_conflict_create_witness :
    usersCreate emptyDB johnBody "id1" =
      (⟨201, Json.obj [("_id", Json.str "id1"), ("name", Json.str "John Doe"),
                       ("email", Json.str "john@example.com"), ("role", Json.str "student")]⟩,
       { emptyDB with
         users := emptyDB.users ++ [⟨"id1", "John Doe", "john@example.com", "student"⟩] }) :=
  ((usersCreate_validation_conflict_create emptyDB johnBody "id1").2
    "John Doe" "john@example.com" "student" rfl rfl rfl
    (by decide) (by decide) (by decide)).2 (by decide)

/-- C8: on a 201 success, user create stores and returns a document built
from exactly the `name`, `email` and `role` fields of the body plus the
assigned `_id`; every other field the caller supplied is absent from it
(the handler builds `new User({name, email, role})` and never reads the
rest of the body). -/
theorem usersCreate_persists_only_schema_fields (db : DB) (body : UserCreateBody) (newId : String)
    (h : (usersCreate db body newId).fst.status = 201) :
    ∃ u : User,
      (usersCreate db body newId).snd.users = db.users ++ [u] ∧
      (usersCreate db body newId).fst.body = userToJson u ∧
      jsonKeys (userToJson u) = ["_id", "name", "email", "role"] ∧
      ∀ k, k ∉ (["_id", "name", "email", "role"] : List String) →
        jsonLookup k (userToJson u) = none := by
  cases h1 : (jsFalsy body.name || jsFalsy body.email || jsFalsy body.role) with
  | true =>
    rw [usersCreate, if_pos h1] at h
    simp [jsonMsg] at h
  | false =>
    have h1' : ¬ ((jsFalsy body.name || jsFalsy body.email || jsFalsy body.role) = true) := by
      rw [h1]; exact Bool.false_ne_true
    cases h2 : (db.users.find? (fun u => u.email = body.email.getD "")).isSome with
    | true =>
      rw [usersCreate, if_neg h1', if_pos h2] at h
      simp [jsonMsg] at h
    | false =>
      have h2' : ¬ ((db.users.find? (fun u => u.email = body.email.getD "")).isSome = true) := by
        rw [h2]; exact Bool.false_ne_true
      refine ⟨⟨newId, body.name.getD "", body.email.getD "", body.role.getD ""⟩, ?_, ?_, rfl, ?_⟩
      · rw [usersCreate, if_neg h1', if_neg h2']
      · rw [usersCreate, if_neg h1', if_neg h2']
      · intro k hk
        simp only [List.mem_cons, List.not_mem_nil, or_false, not_or] at hk
        obtain ⟨k1, k2, k3, k4⟩ := hk
        simp [jsonLookup, userToJson, List.find?, Ne.symm k1, Ne.symm k2, Ne.symm k3, Ne.symm k4]

theorem usersCreate_persists_only_schema_fields_witness :
    (usersCreate emptyDB johnBody "id1").fst.status = 201 ∧
    ∃ u : User,
      (usersCreate emptyDB johnBody "id1").snd.users = emptyDB.users ++ [u] ∧
      (usersCreate emptyDB johnBody "id1").fst.body = userToJson u ∧
      jsonKeys (userToJson u) = ["_id", "name", "email", "role"] ∧
      ∀ k, k ∉ (["_id", "name", "email", "role"] : List String) →
        jsonLookup k (userToJson u) = none :=
  ⟨by decide, usersCreate_persists_only_schema_fields emptyDB johnBody "id1" (by decide)⟩

/-- C5 counterexample: the title filter is passed to the store as a regular
expression (`$regex` with option `i`), not as a literal string.  With the
filter `"."` the course titled "Intro to Node" is returned (the regex `.`
matches any character) although its title does not contain the string "."
case-insensitively — so the list is not "exactly the Courses whose title
contains the given string". -/
theorem coursesList_title_regex_counterexample :
    coursesList db1 (some ".") none =
      ⟨200, Json.arr [courseToJsonPopulated db1 course1]⟩ ∧
    containsCI "." course1.title = false ∧
    regexTest "." course1.title = true :=
  ⟨rfl, by decide, by decide⟩

/-- C5 amended: the Course title filter is a case-insensitive regex search;
for filter strings free of every PCRE metacharacter (`isRegexMeta`) this is
exactly case-insensitive substring containment (so `title="intro"` matches
"Introduction to Node.js" and not "Advanced Topics"); and title is the only
non-exact filter — every other list filter is exact equality on the
reference id. -/
theorem coursesList_title_contains_spec :
    (∀ (db : DB) (t : String) (instr : Option String),
      (∀ ch ∈ t.data, isRegexMeta ch = false) →
      (∀ s, instr = some s → s ≠ "") →
      coursesList db (some t) instr =
        ⟨200, Json.arr ((db.courses.filter (fun c =>
          containsCI t c.title && instr.all (fun s => c.instructor = s))).map
          (courseToJsonPopulated db))⟩) ∧
    (∀ (db : DB) (i : String), i ≠ "" →
      coursesList db none (some i) =
        ⟨200, Json.arr ((db.courses.filter (fun c => c.instructor = i)).map
          (courseToJsonPopulated db))⟩) ∧
    (∀ (db : DB) (c : String), c ≠ "" →
      lessonsList db (some c) =
        ⟨200, Json.arr ((db.lessons.filter (fun l => l.course = c)).map
          (lessonToJsonPopulated db))⟩) ∧
    (∀ (db : DB) (l : String), l ≠ "" →
      quizzesList db (some l) =
        ⟨200, Json.arr ((db.quizzes.filter (fun q => q.lesson = l)).map
          (quizToJsonPopulated db))⟩) ∧
    (∀ (db : DB) (s : String), s ≠ "" →
      submissionsList db (some s) none =
        ⟨200, Json.arr ((db.submissions.filter (fun x => x.student = s)).map
          (submissionToJsonPopulated db))⟩) ∧
    (∀ (db : DB) (q : String), q ≠ "" →
      submissionsList db none (some q) =
        ⟨200, Json.arr ((db.submissions.filter (fun x => x.quiz = q)).map
          (submissionToJsonPopulated db))⟩) ∧
    (∀ (db : DB) (s : String), s ≠ "" →
      enrollmentsList db (some s) none =
        ⟨200, Json.arr ((db.enrollments.filter (fun x => x.student = s)).map
          (enrollmentToJsonPopulated db))⟩) ∧
    (∀ (db : DB) (c : String), c ≠ "" →
      enrollmentsList db none (some c) =
        ⟨200, Json.arr ((db.enrollments.filter (fun x => x.course = c)).map
          (enrollmentToJsonPopulated db))⟩) := by
  refine ⟨?_, ?_, ?_, ?_, ?_, ?_, ?_, ?_⟩
  · intro db t instr hmeta hi
    have ht : '.' ∉ t.data := fun hm => absurd (hmeta '.' hm) (by decide)
    have hcongr : ∀ c ∈ db.courses, courseMatches (some t) instr c =
        (containsCI t c.title && instr.all (fun s => decide (c.instructor = s))) := by
      intro c _
      have h2 : (if truthy instr then decide (c.instructor = instr.getD "") else true) =
          instr.all (fun s => decide (c.instructor = s)) :=
        truthy_guard_eq_all instr hi (fun s => decide (c.instructor = s))
      by_cases h0 : t = ""
      · subst h0
        rw [courseMatches, h2]
        have he : containsCI "" c.title = true := containsCIL_nil_pat c.title.data
        rw [he]
        rfl
      · rw [courseMatches, h2]
        have htr : truthy (some t) = true := by simp [truthy, jsFalsy, h0]
        rw [htr, if_pos rfl]
        rw [show regexTest ((some t).getD "") c.title = containsCI t c.title from
          regexSearch_eq_containsCIL t.data ht c.title.data]
    rw [coursesList, List.filter_congr hcongr]
  · intro db i hi
    have hcongr : ∀ c ∈ db.courses, courseMatches none (some i) c = decide (c.instructor = i) := by
      intro c _
      simp [courseMatches, truthy, jsFalsy, hi]
    rw [coursesList, List.filter_congr hcongr]
  · intro db c hc
    have hcongr : ∀ l ∈ db.lessons, lessonMatches (some c) l = decide (l.course = c) := by
      intro l _
      simp [lessonMatches, truthy, jsFalsy, hc]
    rw [lessonsList, List.filter_congr hcongr]
  · intro db l hl
    have hcongr : ∀ q ∈ db.quizzes, quizMatches (some l) q = decide (q.lesson = l) := by
      intro q _
      simp [quizMatches, truthy, jsFalsy, hl]
    rw [quizzesList, List.filter_congr hcongr]
  · intro db s hs
    have hcongr : ∀ x ∈ db.submissions, submissionMatches (some s) none x = decide (x.student = s) := by
      intro x _
      simp [submissionMatches, truthy, jsFalsy, hs]
    rw [submissionsList, List.filter_congr hcongr]
  · intro db q hq
    have hcongr : ∀ x ∈ db.submissions, submissionMatches none (some q) x = decide (x.quiz = q) := by
      intro x _
      simp [submissionMatches, truthy, jsFalsy, hq]
    rw [submissionsList, List.filter_congr hcongr]
  · intro db s hs
    have hcongr : ∀ x ∈ db.enrollments, enrollmentMatches (some s) none x = decide (x.student = s) := by
      intro x _
      simp [enrollmentMatches, truthy, jsFalsy, hs]
    rw [enrollmentsList, List.filter_congr hcongr]
  · intro db c hc
    have hcongr : ∀ x ∈ db.enrollments, enrollmentMatches none (some c) x = decide (x.course = c) := by
      intro x _
      simp [enrollmentMatches, truthy, jsFalsy, hc]
    rw [enrollmentsList, List.filter_congr hcongr]

def introCourse : Course := ⟨"c2", "Introduction to Node.js", none, "u1", []⟩
def advCourse : Course := ⟨"c3", "Advanced Topics", none, "u1", []⟩
def coursesDB : DB := { emptyDB with courses := [introCourse, advCourse] }

theorem coursesList_title_contains_spec_witness :
    coursesList coursesDB (some "intro") none =
      ⟨200, Json.arr ((coursesDB.courses.filter (fun c =>
        containsCI "intro" c.title &&
        (none : Option String).all (fun s => c.instructor = s))).map
        (courseToJsonPopulated coursesDB))⟩ :=
  coursesList_title_contains_spec.1 coursesDB "intro" none (by decide)
    (fun s h => nomatch h)

/-- C6: every list operation combines its supplied criteria as a pure
conjunction — a document is returned iff it satisfies every supplied
criterion (`Option.all`), and an omitted criterion imposes no constraint.
Criteria are the nonempty query-string values of the routes; the title
criterion of Course is satisfied by its regex match, every other criterion
by id equality.  The unfiltered user list returns every user. -/
theorem list_filters_conjunction_spec :
    (∀ db : DB, usersList db = ⟨200, Json.arr (db.users.map userToJson)⟩) ∧
    (∀ (db : DB) (t i : Option String),
      (∀ s, t = some s → s ≠ "") → (∀ s, i = some s → s ≠ "") →
      coursesList db t i = ⟨200, Json.arr ((db.courses.filter (fun c =>
        t.all (fun x => regexTest x c.title) && i.all (fun x => c.instructor = x))).map
        (courseToJsonPopulated db))⟩) ∧
    (∀ (db : DB) (c : Option String), (∀ s, c = some s → s ≠ "") →
      lessonsList db c = ⟨200, Json.arr ((db.lessons.filter (fun l =>
        c.all (fun x => l.course = x))).map (lessonToJsonPopulated db))⟩) ∧
    (∀ (db : DB) (l : Option String), (∀ s, l = some s → s ≠ "") →
      quizzesList db l = ⟨200, Json.arr ((db.quizzes.filter (fun q =>
        l.all (fun x => q.lesson = x))).map (quizToJsonPopulated db))⟩) ∧
    (∀ (db : DB) (s q : Option String),
      (∀ x, s = some x → x ≠ "") → (∀ x, q = some x → x ≠ "") →
      submissionsList db s q = ⟨200, Json.arr ((db.submissions.filter (fun sub =>
        s.all (fun x => sub.student = x) && q.all (fun x => sub.quiz = x))).map
        (submissionToJsonPopulated db))⟩) ∧
    (∀ (db : DB) (s c : Option String),
      (∀ x, s = some x → x ≠ "") → (∀ x, c = some x → x ≠ "") →
      enrollmentsList db s c = ⟨200, Json.arr ((db.enrollments.filter (fun e =>
        s.all (fun x => e.student = x) && c.all (fun x => e.course = x))).map
        (enrollmentToJsonPopulated db))⟩) := by
  refine ⟨fun db => rfl, ?_, ?_, ?_, ?_, ?_⟩
  · intro db t i ht hi
    have hcongr : ∀ c ∈ db.courses, courseMatches t i c =
        (t.all (fun x => regexTest x c.title) && i.all (fun x => decide (c.instructor = x))) := by
      intro c _
      rw [courseMatches, truthy_guard_eq_all t ht (fun x => regexTest x c.title),
          truthy_guard_eq_all i hi (fun x => decide (c.instructor = x))]
    rw [coursesList, List.filter_congr hcongr]
  · intro db c hc
    have hcongr : ∀ l ∈ db.lessons, lessonMatches c l = c.all (fun x => decide (l.course = x)) := by
      intro l _
      rw [lessonMatches, truthy_guard_eq_all c hc (fun x => decide (l.course = x))]
    rw [lessonsList, List.filter_congr hcongr]
  · intro db l hl
    have hcongr : ∀ q ∈ db.quizzes, quizMatches l q = l.all (fun x => decide (q.lesson = x)) := by
      intro q _
      rw [quizMatches, truthy_guard_eq_all l hl (fun x => decide (q.lesson = x))]
    rw [quizzesList, List.filter_congr hcongr]
  · intro db s q hs hq
    have hcongr : ∀ x ∈ db.submissions, submissionMatches s q x =
        (s.all (fun v => decide (x.student = v)) && q.all (fun v => decide (x.quiz = v))) := by
      intro x _
      rw [submissionMatches, truthy_guard_eq_all s hs (fun v => decide (x.student = v)),
          truthy_guard_eq_all q hq (fun v => decide (x.quiz = v))]
    rw [submissionsList, List.filter_congr hcongr]
  · intro db s c hs hc
    have hcongr : ∀ x ∈ db.enrollments, enrollmentMatches s c x =
        (s.all (fun v => decide (x.student = v)) && c.all (fun v => decide (x.course = v))) := by
      intro x _
      rw [enrollmentMatches, truthy_guard_eq_all s hs (fun v => decide (x.student = v)),
          truthy_guard_eq_all c hc (fun v => decide (x.course = v))]
    rw [enrollmentsList, List.filter_congr hcongr]

theorem list_filters_conjunction_spec_witness :
    submissionsList db1 (some "u1") (some "q1") =
      ⟨200, Json.arr ((db1.submissions.filter (fun sub =>
        (some "u1" : Option String).all (fun x => sub.student = x) &&
        (some "q1" : Option String).all (fun x => sub.quiz = x))).map
        (submissionToJsonPopulated db1))⟩ :=
  list_filters_conjunction_spec.2.2.2.2.1 db1 (some "u1") (some "q1")
    (fun x h => by cases h; decide) (fun x h => by cases h; decide)

/-- C10: `findByIdAndUpdate(id, req.body, {new: true})` applies the body as
a shallow partial patch in every entity's update handler: when the target
exists, the response is 200 with the post-update document and the store
holds the patched document; and a field the body does not name keeps its
previous value under the patch. -/
theorem updateById_shallow_patch_spec :
    (∀ (db : DB) (i : String) (p : QuizPatch) (q : Quiz),
      db.quizzes.find? (fun x => x.id = i) = some q →
      (quizzesUpdate db i p).fst = ⟨200, quizToJson (applyQuizPatch p q)⟩ ∧
      (quizzesUpdate db i p).snd.quizzes =
        db.quizzes.map (fun r => if r.id = i then applyQuizPatch p r else r)) ∧
    (∀ (db : DB) (i : String) (p : CoursePatch) (c : Course),
      db.courses.find? (fun x => x.id = i) = some c →
      (coursesUpdate db i p).fst = ⟨200, courseToJson (applyCoursePatch p c)⟩ ∧
      (coursesUpdate db i p).snd.courses =
        db.courses.map (fun r => if r.id = i then applyCoursePatch p r else r)) ∧
    (∀ (db : DB) (i : String) (p : LessonPatch) (l : Lesson),
      db.lessons.find? (fun x => x.id = i) = some l →
      (lessonsUpdate db i p).fst = ⟨200, lessonToJson (applyLessonPatch p l)⟩ ∧
      (lessonsUpdate db i p).snd.lessons =
        db.lessons.map (fun r => if r.id = i then applyLessonPatch p r else r)) ∧
    (∀ (db : DB) (i : String) (p : SubmissionPatch) (s : Submission),
      db.submissions.find? (fun x => x.id = i) = some s →
      (submissionsUpdate db i p).fst = ⟨200, submissionToJson (applySubmissionPatch p s)⟩ ∧
      (submissionsUpdate db i p).snd.submissions =
        db.submissions.map (fun r => if r.id = i then applySubmissionPatch p r else r)) ∧
    (∀ (db : DB) (i : String) (p : EnrollmentPatch) (e : Enrollment),
      db.enrollments.find? (fun x => x.id = i) = some e →
      (enrollmentsUpdate db i p).fst = ⟨200, enrollmentToJson (applyEnrollmentPatch p e)⟩ ∧
      (enrollmentsUpdate db i p).snd.enrollments =
        db.enrollments.map (fun r => if r.id = i then applyEnrollmentPatch p r else r)) ∧
    (∀ (p : QuizPatch) (q : Quiz),
      (p.question = none → (applyQuizPatch p q).question = q.question) ∧
      (p.options = none → (applyQuizPatch p q).options = q.options) ∧
      (p.answer = none → (applyQuizPatch p q).answer = q.answer) ∧
      (p.lesson = none → (applyQuizPatch p q).lesson = q.lesson)) ∧
    (∀ (p : CoursePatch) (c : Course),
      (p.title = none → (applyCoursePatch p c).title = c.title) ∧
      (p.description = none → (applyCoursePatch p c).description = c.description) ∧
      (p.instructor = none → (applyCoursePatch p c).instructor = c.instructor) ∧
      (p.lessons = none → (applyCoursePatch p c).lessons = c.lessons)) ∧
    (∀ (p : LessonPatch) (l : Lesson),
      (p.title = none → (applyLessonPatch p l).title = l.title) ∧
      (p.content = none → (applyLessonPatch p l).content = l.content) ∧
      (p.course = none → (applyLessonPatch p l).course = l.course)) ∧
    (∀ (p : SubmissionPatch) (s : Submission),
      (p.student = none → (applySubmissionPatch p s).student = s.student) ∧
      (p.quiz = none → (applySubmissionPatch p s).quiz = s.quiz) ∧
      (p.answer = none → (applySubmissionPatch p s).answer = s.answer)) ∧
    (∀ (p : EnrollmentPatch) (e : Enrollment),
      (p.student = none → (applyEnrollmentPatch p e).student = e.student) ∧
      (p.course = none → (applyEnrollmentPatch p e).course = e.course) ∧
      (p.enrollmentDate = none → (applyEnrollmentPatch p e).enrollmentDate = e.enrollmentDate)) := by
  refine ⟨?_, ?_, ?_, ?_, ?_, ?_, ?_, ?_, ?_, ?_⟩
  · intro db i p q h
    rw [quizzesUpdate, h]
    exact ⟨rfl, rfl⟩
  · intro db i p c h
    rw [coursesUpdate, h]
    exact ⟨rfl, rfl⟩
  · intro db i p l h
    rw [lessonsUpdate, h]
    exact ⟨rfl, rfl⟩
  · intro db i p s h
    rw [submissionsUpdate, h]
    exact ⟨rfl, rfl⟩
  · intro db i p e h
    rw [enrollmentsUpdate, h]
    exact ⟨rfl, rfl⟩
  · intro p q
    refine ⟨?_, ?_, ?_, ?_⟩ <;> intro hx <;> simp [applyQuizPatch, hx]
  · intro p c
    refine ⟨?_, ?_, ?_, ?_⟩ <;> intro hx <;> simp [applyCoursePatch, hx]
  · intro p l
    refine ⟨?_, ?_, ?_⟩ <;> intro hx <;> simp [applyLessonPatch, hx]
  · intro p s
    refine ⟨?_, ?_, ?_⟩ <;> intro hx <;> simp [applySubmissionPatch, hx]
  · intro p e
    refine ⟨?_, ?_, ?_⟩ <;> intro hx <;> simp [applyEnrollmentPatch, hx]

theorem updateById_shallow_patch_spec_witness :
    (quizzesUpdate db1 "q1" ⟨some "What is Express?", none, none, none⟩).fst =
      ⟨200, quizToJson (applyQuizPatch ⟨some "What is Express?", none, none, none⟩ quiz1)⟩ ∧
    (quizzesUpdate db1 "q1" ⟨some "What is Express?", none, none, none⟩).snd.quizzes =
      db1.quizzes.map (fun r =>
        if r.id = "q1" then applyQuizPatch ⟨some "What is Express?", none, none, none⟩ r else r) :=
  updateById_shallow_patch_spec.1 db1 "q1" ⟨some "What is Express?", none, none, none⟩ quiz1
    (by decide)

end CourseApi
